import Mathlib

/-!
Shallow embedding of the mediaplace backend matching/fingerprinting code
(`backend/music_matcher.py`, `backend/api/sync_views.py`,
`backend/api/library_views.py`, `backend/local_fingerprint_service.py`)
together with theorems settling the specification claims about it.

Modelling conventions:

* Python floats are modelled as `ℚ`; all constants in the relevant code are
  exact decimals, so rational arithmetic reproduces the intended values.
* `None`-able values are `Option _`; Django `CharField(blank=True)` values
  are `String` with `""` for blank, matching Python truthiness tests.
* Python truthiness on numbers (`None` and `0` falsy) and strings
  (`None` and `""` falsy) is made explicit via `pyFalsyNum` / `pyTruthyStr`.
* Calls into external libraries (`rapidfuzz.fuzz`, `re`, `unicodedata`)
  are uninterpreted parameters collected in `TextOracle`; the repository's
  own control flow and arithmetic around them is translated exactly.
* The Django ORM store is an explicit `Db` state record; queries become
  list lookups and updates become list maps/filters.
-/

namespace Mediaplace

/-- Python numeric truthiness for optional floats: `None` and `0` are falsy. -/
def pyFalsyNum : Option ℚ → Bool
  | none => true
  | some q => q == 0

/-- Python string truthiness for optional strings: `None` and `""` are falsy. -/
def pyTruthyStr : Option String → Bool
  | none => false
  | some s => !(s == "")

/-- ASCII whitespace as stripped by Python `str.strip()` (the whitespace
characters that occur in ISRC data). -/
def isSpaceChar (c : Char) : Bool := c = ' ' || c = '\t' || c = '\n' || c = '\r'

/-- Model of Python `str.strip()` (leading/trailing whitespace removed). -/
def strStrip (s : String) : String :=
  ⟨((s.data.dropWhile isSpaceChar).reverse.dropWhile isSpaceChar).reverse⟩

/-- ASCII uppercase of one character. -/
def asciiUpperChar (c : Char) : Char :=
  if 97 ≤ c.toNat ∧ c.toNat ≤ 122 then Char.ofNat (c.toNat - 32) else c

/-- Model of Python `str.upper()` on the ASCII strings (ISRCs) it is applied to. -/
def strUpper (s : String) : String := ⟨s.data.map asciiUpperChar⟩

/-- Model of Python `list(set(xs))`: duplicates removed.  CPython set iteration
order is unspecified; it is modelled as first-insertion order. -/
def pySetList (l : List Nat) : List Nat :=
  l.foldl (fun acc x => if x ∈ acc then acc else acc ++ [x]) []

/-- Model of Python `list(set(xs))` for strings, first-insertion order. -/
def pySetListStr (l : List String) : List String :=
  l.foldl (fun acc x => if x ∈ acc then acc else acc ++ [x]) []

/-!
Embedding of `backend/music_matcher.py`.

The text-similarity primitives live in external libraries (`rapidfuzz.fuzz`)
or are regex/Unicode transformations (`re`, `unicodedata`); they are kept
abstract as an oracle.  Every claim about the scorer is proved for all
oracles, i.e. regardless of what those libraries return.
-/

/-- Uninterpreted external text primitives used by `music_matcher.py`:
`fuzz_token_set` models `rapidfuzz.fuzz.token_set_ratio` (returning 0–100),
the normalizers model `normalize_title` / `normalize_artist` /
`normalize_yt_channel` (regex + Unicode folding), `slugExpand` models
`_SLUG_RE.sub(" ", ·)`, and `version_markers` models
`_VERSION_RE.findall` with results lowercased. -/
structure TextOracle where
  fuzz_token_set : String → String → ℚ
  normalize_title : String → String
  normalize_artist : String → String
  normalize_yt_channel : String → String
  slugExpand : String → String
  version_markers : String → List String

/-- Embedding of `music_matcher._artist_score`. -/
def _artist_score (O : TextOracle) (source_artist cand_artist : String) : ℚ :=
  if source_artist = "" ∨ cand_artist = "" then 1/2
  else
    let src := O.normalize_artist source_artist
    let raw := O.normalize_yt_channel cand_artist
    let slug := O.normalize_yt_channel (O.slugExpand cand_artist)
    let score_raw := O.fuzz_token_set src raw / 100
    let score_slug := O.fuzz_token_set src slug / 100
    let best := max score_raw score_slug
    if best < 85/100 then
      let src_compact := src.replace " " ""
      let step := fun (b : ℚ) (cand_form : String) =>
        let cand_compact := cand_form.replace " " ""
        if src_compact ≠ "" ∧ cand_compact ≠ "" then
          let overlap : ℚ := min src_compact.length cand_compact.length
          let total : ℚ := max src_compact.length cand_compact.length
          if cand_compact.startsWith src_compact ∨ src_compact.startsWith cand_compact then
            max b (1/2 + (2/5) * overlap / total)
          else b
        else b
      step (step best raw) slug
    else best

/-- Embedding of `music_matcher._duration_score`.  `dur_a_ms` is in
milliseconds, `dur_b_sec` in seconds; a `None` or `0` duration is falsy in
Python and yields `None`. -/
def _duration_score (dur_a_ms dur_b_sec : Option ℚ) (tolerance_sec : ℚ) : Option ℚ :=
  if pyFalsyNum dur_a_ms ∨ pyFalsyNum dur_b_sec then none
  else
    let dur_a_sec := dur_a_ms.getD 0 / 1000
    let diff := |dur_a_sec - dur_b_sec.getD 0|
    if diff ≤ tolerance_sec then some 1
    else if diff ≤ 30 then some (1 - (diff - tolerance_sec) / 30)
    else some 0

/-- Embedding of `music_matcher._version_penalty`: a fixed −0.15 when the
candidate title carries a version marker the source title does not. -/
def _version_penalty (O : TextOracle) (source_title cand_title : String) : ℚ :=
  let src_versions := O.version_markers source_title
  let cnd_versions := O.version_markers cand_title
  let extra := cnd_versions.filter (fun m => !(src_versions.contains m))
  if extra.isEmpty then 0 else -(15/100)

/-- The ISRC short-circuit condition of `music_matcher.score_candidate`:
both ISRCs present (truthy) and equal after `strip().upper()`. -/
def isrc_short_circuit (source_isrc cand_isrc : Option String) : Bool :=
  pyTruthyStr source_isrc && pyTruthyStr cand_isrc &&
    strUpper (strStrip (source_isrc.getD "")) == strUpper (strStrip (cand_isrc.getD ""))

/-- Embedding of `music_matcher.score_candidate`. -/
def score_candidate (O : TextOracle)
    (source_title source_artist : String) (source_duration_ms : Option ℚ)
    (cand_title cand_artist : String) (cand_duration_sec : Option ℚ)
    (source_isrc cand_isrc : Option String) : ℚ :=
  if isrc_short_circuit source_isrc cand_isrc then 1
  else
    let t_score := O.fuzz_token_set (O.normalize_title source_title)
      (O.normalize_title cand_title) / 100
    let a_score := _artist_score O source_artist cand_artist
    let d_score := _duration_score source_duration_ms cand_duration_sec 5
    let base :=
      match d_score with
      | none => t_score * (57/100) + a_score * (43/100)
      | some d => t_score * (45/100) + a_score * (35/100) + d * (20/100)
    let penalty := _version_penalty O source_title cand_title
    max 0 (min 1 (base + penalty))

/-- Constant `music_matcher.THRESHOLD_MATCHED`. -/
def THRESHOLD_MATCHED : ℚ := 90/100

/-- Constant `music_matcher.THRESHOLD_UNCERTAIN`. -/
def THRESHOLD_UNCERTAIN : ℚ := 55/100

/-- Embedding of `music_matcher.classify_confidence`; the result strings are
the `SyncTrack.Status` values from `api/models.py`. -/
def classify_confidence (confidence : ℚ) : String :=
  if THRESHOLD_MATCHED ≤ confidence then "matched"
  else if THRESHOLD_UNCERTAIN ≤ confidence then "uncertain"
  else "not_found"

/-- Audio-feature dictionary returned by `AudioFingerprint.audio_features`:
each key is present only when the underlying field is set. -/
structure Features where
  tempo : Option ℚ
  key : Option String
  mode : Option String
deriving DecidableEq, Repr

/-- Python truthiness of the features dict: empty iff no key was inserted. -/
def Features.isEmptyDict (f : Features) : Bool :=
  f.tempo == none && f.key == none && f.mode == none

/-- Embedding of `music_matcher.bpm_match_boost`. -/
def bpm_match_boost (score : ℚ) (source_features cand_features : Features) : ℚ :=
  let src_bpm := source_features.tempo
  let cnd_bpm := cand_features.tempo
  if pyFalsyNum src_bpm ∨ pyFalsyNum cnd_bpm then score
  else
    let s := src_bpm.getD 0
    let c := cnd_bpm.getD 0
    let closest := min (|c / s - 1|) (min (|c * 2 / s - 1|) (|c / (s * 2) - 1|))
    if closest ≤ 2/100 then min 1 (score + 5/100)
    else if closest > 15/100 then max 0 (score - 10/100)
    else score

/-- Concrete oracle used only to witness theorems at concrete inputs: the
fuzzy ratio is the constant 90 and the normalizers are identities. -/
def trivOracle : TextOracle where
  fuzz_token_set := fun _ _ => 90
  normalize_title := id
  normalize_artist := id
  normalize_yt_channel := id
  slugExpand := id
  version_markers := fun _ => []

/-- C2 counterexample: at a difference of exactly 30 seconds the duration
component is 1/6, not 0 as the claim states (source 200000 ms = 200 s,
candidate 230 s). -/
theorem duration_score_at_thirty_not_zero :
    _duration_score (some 200000) (some 230) 5 ≠ some 0 ∧
    _duration_score (some 200000) (some 230) 5 = some (1/6) := by
  constructor <;> norm_num [_duration_score, pyFalsyNum]

/-- C2 (amended): for known nonzero durations the similarity is 1.0 when the
difference is at most 5 s, equals `1 - (diff - 5)/30` when the difference is
in (5 s, 30 s] — linear decay with slope 1/30, reaching 1/6 (not 0) at a
30-second difference — and is 0.0 only for differences beyond 30 s. -/
theorem duration_score_piecewise (a b : ℚ) (ha : a ≠ 0) (hb : b ≠ 0) :
    (|a/1000 - b| ≤ 5 → _duration_score (some a) (some b) 5 = some 1) ∧
    (5 < |a/1000 - b| → |a/1000 - b| ≤ 30 →
      _duration_score (some a) (some b) 5 = some (1 - (|a/1000 - b| - 5) / 30)) ∧
    (30 < |a/1000 - b| → _duration_score (some a) (some b) 5 = some 0) := by
  unfold _duration_score pyFalsyNum
  simp only [beq_iff_eq, ha, hb, or_self, decide_eq_true_eq, if_neg, Option.getD_some]
  have hfalse : ((a == 0) || (b == 0)) = false := by
    simp [ha, hb]
  refine ⟨fun h1 => ?_, fun h1 h2 => ?_, fun h1 => ?_⟩ <;>
    simp only [hfalse, Bool.false_eq_true, if_false, Option.getD_some] <;> split_ifs <;>
    first
      | rfl
      | linarith

/-- C2 witness for the amended statement: source 200000 ms, candidate 212 s,
difference 12 s, similarity `1 - 7/30 = 23/30`. -/
theorem duration_score_piecewise_witness :
    _duration_score (some 200000) (some 212) 5 = some (1 - (|(200000 : ℚ)/1000 - 212| - 5) / 30) :=
  (duration_score_piecewise 200000 212 (by norm_num) (by norm_num)).2.1
    (by norm_num) (by norm_num)

/-- C5: `classify_confidence` returns `matched` iff the confidence is at
least 0.90, `uncertain` iff it is in [0.55, 0.90), and `not_found` iff it is
below 0.55; the boundaries 0.90 and 0.55 classify as matched and uncertain. -/
theorem classify_confidence_thresholds (c : ℚ) :
    (classify_confidence c = "matched" ↔ 90/100 ≤ c) ∧
    (classify_confidence c = "uncertain" ↔ 55/100 ≤ c ∧ c < 90/100) ∧
    (classify_confidence c = "not_found" ↔ c < 55/100) := by
  unfold classify_confidence THRESHOLD_MATCHED THRESHOLD_UNCERTAIN
  split_ifs with h1 h2 <;> simp +decide <;>
    first
      | (refine ⟨by linarith, by intro h; linarith, by linarith⟩)
      | (refine ⟨by linarith, ⟨by linarith, by linarith⟩, by linarith⟩)

/-- C6: whenever both ISRCs are present (non-empty) and equal after
`strip().upper()`, `score_candidate` returns exactly 1.0, whatever the
title, artist and duration arguments and whatever the text oracle does. -/
theorem score_candidate_isrc_one (O : TextOracle)
    (source_title source_artist : String) (source_duration_ms : Option ℚ)
    (cand_title cand_artist : String) (cand_duration_sec : Option ℚ)
    (si ci : String) (hsi : si ≠ "") (hci : ci ≠ "")
    (heq : strUpper (strStrip si) = strUpper (strStrip ci)) :
    score_candidate O source_title source_artist source_duration_ms
      cand_title cand_artist cand_duration_sec (some si) (some ci) = 1 := by
  have h : isrc_short_circuit (some si) (some ci) = true := by
    simp [isrc_short_circuit, pyTruthyStr, hsi, hci, heq]
  unfold score_candidate
  rw [h]
  rfl

/-- C6 witness: equal ISRCs up to whitespace and case force a score of 1.0
even with mismatched titles, artists and durations. -/
theorem score_candidate_isrc_one_witness :
    score_candidate trivOracle "Garbage Title" "Junk" (some 1) "Other" "Band" (some 999)
      (some " usrc17607839 ") (some "USRC17607839") = 1 :=
  score_candidate_isrc_one trivOracle "Garbage Title" "Junk" (some 1) "Other" "Band"
    (some 999) " usrc17607839 " "USRC17607839" (by decide) (by decide) (by decide)

/-- C7: without the ISRC short-circuit, the scorer combines its components
as `0.45*title + 0.35*artist + 0.20*duration` when the duration component is
known, and as `0.57*title + 0.43*artist` when the duration component is
`None` (before the version penalty and the clamp to [0, 1]). -/
theorem score_candidate_weights (O : TextOracle)
    (st sa : String) (sd : Option ℚ) (ct ca : String) (cd : Option ℚ)
    (si ci : Option String) (hno : isrc_short_circuit si ci = false) :
    (∀ d, _duration_score sd cd 5 = some d →
      score_candidate O st sa sd ct ca cd si ci =
        max 0 (min 1 ((O.fuzz_token_set (O.normalize_title st) (O.normalize_title ct) / 100)
          * (45/100) + _artist_score O sa ca * (35/100) + d * (20/100)
          + _version_penalty O st ct))) ∧
    (_duration_score sd cd 5 = none →
      score_candidate O st sa sd ct ca cd si ci =
        max 0 (min 1 ((O.fuzz_token_set (O.normalize_title st) (O.normalize_title ct) / 100)
          * (57/100) + _artist_score O sa ca * (43/100) + _version_penalty O st ct))) := by
  unfold score_candidate
  rw [hno]
  constructor
  · intro d hd
    rw [hd]
    rfl
  · intro hd
    rw [hd]
    rfl

/-- C7 witness: with a known source duration but unknown candidate duration
the 0.57/0.43 redistribution is selected (components are 0.9 under the
witness oracle, penalty 0, so the score is 0.9). -/
theorem score_candidate_weights_witness :
    score_candidate trivOracle "Title" "Artist" (some 200000) "Cand" "Chan" none none none
      = 90/100 := by
  have h := (score_candidate_weights trivOracle "Title" "Artist" (some 200000) "Cand" "Chan"
    none none none (by rfl)).2 (by simp [_duration_score, pyFalsyNum])
  rw [h]
  simp +decide [trivOracle, _artist_score, _version_penalty]
  norm_num [max_def, min_def]

/-- C10 (implicit): a duration of 0 — source milliseconds or candidate
seconds — behaves exactly like an unknown duration: the duration component
is `None` and, absent the ISRC short-circuit, the 0.57/0.43 title/artist
weights are used. -/
theorem score_candidate_zero_duration (O : TextOracle)
    (st sa : String) (sd : Option ℚ) (ct ca : String) (cd : Option ℚ)
    (si ci : Option String) (h0 : sd = some 0 ∨ cd = some 0) :
    _duration_score sd cd 5 = none ∧
    (isrc_short_circuit si ci = false →
      score_candidate O st sa sd ct ca cd si ci =
        max 0 (min 1 ((O.fuzz_token_set (O.normalize_title st) (O.normalize_title ct) / 100)
          * (57/100) + _artist_score O sa ca * (43/100) + _version_penalty O st ct))) := by
  have hd : _duration_score sd cd 5 = none := by
    unfold _duration_score
    rcases h0 with h | h <;> simp [h, pyFalsyNum]
  refine ⟨hd, fun hno => ?_⟩
  unfold score_candidate
  rw [hno, hd]
  rfl

/-- C10 witness: a source duration of exactly 0 ms yields the redistributed
weights (score 0.9 under the witness oracle). -/
theorem score_candidate_zero_duration_witness :
    _duration_score (some 0) (some 100) 5 = none ∧
    score_candidate trivOracle "Song" "Who" (some 0) "Song2" "Who2" (some 100) none none
      = 90/100 := by
  have h := score_candidate_zero_duration trivOracle "Song" "Who" (some 0) "Song2" "Who2"
    (some 100) none none (Or.inl rfl)
  refine ⟨h.1, ?_⟩
  rw [h.2 (by rfl)]
  simp +decide [trivOracle, _artist_score, _version_penalty]
  norm_num [max_def, min_def]

/-!
Model of the Django store (`api/models.py`) as used by the fingerprint
merge, the identity-linking sweep and the match workers.
-/

/-- Model of an `api.models.AudioFingerprint` row.  Display-only Shazam
metadata (title/artist/album/genre/cover), `source`, `algo_version` and the
auto timestamps are omitted: none of them is read or written by the embedded
code paths except `shazam_id`, `match_count` and `last_matched_at`.
Primary-key ids are assigned in creation order, so "earlier created" is
"lower id". -/
structure AudioFingerprint where
  id : Nat
  mbid : String
  isrcs : List String
  chromaprint : String
  bpm : Option ℚ
  key : String
  mode : String
  shazam_id : String
  match_count : Nat
  last_matched_at : Option Nat
deriving DecidableEq, Repr

/-- Embedding of `AudioFingerprint.audio_features`: a dict whose keys are
present only when the corresponding column is set. -/
def AudioFingerprint.audio_features (fp : AudioFingerprint) : Features :=
  { tempo := fp.bpm
    key := if fp.key = "" then none else some fp.key
    mode := if fp.mode = "" then none else some fp.mode }

/-- Model of an `api.models.TrackSource` row (`fingerprint` is the nullable
foreign key, stored as the target id). -/
structure TrackSource where
  id : Nat
  fingerprint : Option Nat
  platform : String
  track_id : String
  url : String
deriving DecidableEq, Repr

/-- One entry of `SyncTrack.alternatives`. -/
structure Alt where
  video_id : String
  title : String
  artist : String
  confidence : ℚ
deriving DecidableEq, Repr

/-- Model of an `api.models.SyncTrack` row.  The job's source/target
platforms and creation time are denormalized onto the row (they are reached
through `job__source_from__source_type` etc. in the queries). -/
structure SyncTrack where
  id : Nat
  job_id : Nat
  job_src_platform : String
  job_tgt_platform : String
  job_created_at : Nat
  source_track_id : String
  source_title : String
  source_artist : String
  source_duration_ms : Option ℚ
  source_permalink_url : String
  match_confidence : Option ℚ
  target_video_id : String
  target_title : String
  status : String
  user_feedback : String
deriving DecidableEq, Repr

/-- The persistent store: fingerprint, track-source and sync-track tables,
the per-TrackSource `LocalFingerprint` hash lists, the library membership
join (`library_entries__library_playlist__user_id`) flattened to
(user id, track-source id) pairs, and the existing `SyncJob` ids. -/
structure Db where
  fingerprints : List AudioFingerprint
  trackSources : List TrackSource
  syncTracks : List SyncTrack
  localFingerprints : List (Nat × List String)
  libraryEntries : List (Nat × Nat)
  syncJobs : List Nat
deriving DecidableEq, Repr

/-- `AudioFingerprint.objects.get(id=i)` (as `Option`): first row with id `i`. -/
def Db.getFp (db : Db) (i : Nat) : Option AudioFingerprint :=
  db.fingerprints.find? (fun fp => fp.id == i)

/-- `LocalFingerprint.objects.filter(track_source=ts).first()`, projected to
its `fingerprint_data` hash list. -/
def Db.localFpData (db : Db) (ts_id : Nat) : Option (List String) :=
  (db.localFingerprints.find? (fun p => p.1 == ts_id)).map (·.2)

/-!
Embedding of `sync_views._merge_fingerprints`.
-/

/-- The `_quality` priority tuple of `_merge_fingerprints`: Python
`(bool(fp.mbid), bool(fp.bpm), bool(fp.key), bool(fp.isrcs), -fp.id)` with
booleans as 0/1 (note `bool(fp.bpm)` is false for both `None` and `0.0`). -/
def _quality (fp : AudioFingerprint) : Nat × Nat × Nat × Nat × Int :=
  ((if fp.mbid = "" then 0 else 1),
   (if pyFalsyNum fp.bpm then 0 else 1),
   (if fp.key = "" then 0 else 1),
   (if fp.isrcs = [] then 0 else 1),
   -(fp.id : Int))

/-- Python lexicographic `>=` on the 5-tuples returned by `_quality`. -/
def pyTupleGe : Nat × Nat × Nat × Nat × Int → Nat × Nat × Nat × Nat × Int → Bool
  | (a1, a2, a3, a4, a5), (b1, b2, b3, b4, b5) =>
    if a1 ≠ b1 then a1 > b1
    else if a2 ≠ b2 then a2 > b2
    else if a3 ≠ b3 then a3 > b3
    else if a4 ≠ b4 then a4 > b4
    else a5 ≥ b5

/-- Winner/loser selection of `_merge_fingerprints`:
`if _quality(fp_a) >= _quality(fp_b): winner, loser = fp_a, fp_b`. -/
def mergeWinner (fp_a fp_b : AudioFingerprint) : AudioFingerprint × AudioFingerprint :=
  if pyTupleGe (_quality fp_a) (_quality fp_b) then (fp_a, fp_b) else (fp_b, fp_a)

/-- The fill-missing-values block of `_merge_fingerprints`: the loser's
non-empty mbid/bpm/key/mode/isrcs/chromaprint fill empty winner fields and
populated winner fields are never overwritten.  `shazam_id` (and the other
Shazam columns) are not among the filled fields. -/
def fillFrom (winner loser : AudioFingerprint) : AudioFingerprint :=
  { winner with
    mbid := if winner.mbid = "" ∧ loser.mbid ≠ "" then loser.mbid else winner.mbid
    bpm := if winner.bpm = none ∧ loser.bpm ≠ none then loser.bpm else winner.bpm
    key := if winner.key = "" ∧ loser.key ≠ "" then loser.key else winner.key
    mode := if winner.mode = "" ∧ loser.mode ≠ "" then loser.mode else winner.mode
    isrcs := if winner.isrcs = [] ∧ loser.isrcs ≠ [] then loser.isrcs else winner.isrcs
    chromaprint := if winner.chromaprint = "" ∧ loser.chromaprint ≠ "" then
        loser.chromaprint
      else winner.chromaprint }

/-- Embedding of `sync_views._merge_fingerprints`: look both records up (a
missing record ends the call with `fp_id_a` — the `DoesNotExist` branch),
pick winner and loser by `_quality`, fill missing winner fields from the
loser, re-point the loser's TrackSources to the winner, delete the loser,
and return the winner's id. -/
def _merge_fingerprints (db : Db) (fp_id_a fp_id_b : Nat) : Db × Nat :=
  match db.getFp fp_id_a, db.getFp fp_id_b with
  | some fp_a, some fp_b =>
    if fp_a.id = fp_b.id then (db, fp_a.id)
    else
      let wl := mergeWinner fp_a fp_b
      let winner := fillFrom wl.1 wl.2
      ({ db with
          fingerprints := (db.fingerprints.map fun fp =>
              if fp.id = winner.id then winner else fp).filter fun fp => fp.id ≠ wl.2.id
          trackSources := db.trackSources.map fun ts =>
              if ts.fingerprint = some wl.2.id then { ts with fingerprint := some winner.id }
              else ts },
        winner.id)
  | _, _ => (db, fp_id_a)

/-- An `AudioFingerprint` row with id 1 and every other column empty. -/
def fpBlank : AudioFingerprint :=
  { id := 1, mbid := "", isrcs := [], chromaprint := "", bpm := none, key := "",
    mode := "", shazam_id := "", match_count := 0, last_matched_at := none }

/-- A store holding only fingerprint rows. -/
def dbOnlyFps (l : List AudioFingerprint) : Db :=
  { fingerprints := l, trackSources := [], syncTracks := [], localFingerprints := [],
    libraryEntries := [], syncJobs := [] }

/-- After replacing the winner row and deleting the loser row, looking the
winner id up finds the updated record. -/
theorem find_replace_filter (l : List AudioFingerprint) (w lid : Nat) (x : AudioFingerprint)
    (hx : x.id = w) (hwl : w ≠ lid) (hmem : ∃ fp ∈ l, fp.id = w) :
    ((l.map fun fp => if fp.id = w then x else fp).filter fun fp => fp.id ≠ lid).find?
      (fun fp => fp.id == w) = some x := by
  induction l with
  | nil => simp at hmem
  | cons hd tl ih =>
    by_cases hhd : hd.id = w
    · simp only [List.map_cons, if_pos hhd, List.filter_cons]
      rw [if_pos (by simp [hx, hwl])]
      simp [List.find?, hx]
    · simp only [List.map_cons, if_neg hhd, List.filter_cons]
      have hmem2 : ∃ fp ∈ tl, fp.id = w := by
        rcases hmem with ⟨fp, hfp, hid⟩
        rcases List.mem_cons.mp hfp with h | h
        · exact absurd (h ▸ hid) hhd
        · exact ⟨fp, h, hid⟩
      by_cases hlid : hd.id = lid
      · rw [if_neg (by simp [hlid])]
        exact ih hmem2
      · rw [if_pos (by simp [hlid])]
        rw [List.find?_cons_of_neg _ (by simp [hhd])]
        exact ih hmem2

/-- After filtering out the loser id, looking the loser id up finds nothing. -/
theorem find_after_delete (l : List AudioFingerprint) (f : AudioFingerprint → AudioFingerprint)
    (lid : Nat) :
    ((l.map f).filter fun fp => fp.id ≠ lid).find? (fun fp => fp.id == lid) = none := by
  rw [List.find?_eq_none]
  intro x hx
  have hmem := List.of_mem_filter hx
  simp at hmem ⊢
  exact hmem

/-- C8 (amended): merging two distinct existing records keeps the record
preferred by the `_quality` priority tuple (has MBID, has BPM, has key, has
ISRCs, earlier-created i.e. lower id), returns its id, fills exactly the
fields mbid/bpm/key/mode/isrcs/chromaprint of the survivor from the loser
when empty on the survivor and non-empty on the loser — never overwriting a
populated survivor field and never copying `shazam_id` — and deletes the
loser. -/
theorem merge_fingerprints_winner_and_fill (db : Db) (a b : Nat)
    (fpa fpb : AudioFingerprint)
    (ha : db.getFp a = some fpa) (hb : db.getFp b = some fpb) (hne : fpa.id ≠ fpb.id) :
    (_merge_fingerprints db a b).2 = (mergeWinner fpa fpb).1.id ∧
    (_merge_fingerprints db a b).1.getFp (mergeWinner fpa fpb).1.id
      = some (fillFrom (mergeWinner fpa fpb).1 (mergeWinner fpa fpb).2) ∧
    (_merge_fingerprints db a b).1.getFp (mergeWinner fpa fpb).2.id = none := by
  have hmema : fpa ∈ db.fingerprints := List.mem_of_find?_eq_some ha
  have hmemb : fpb ∈ db.fingerprints := List.mem_of_find?_eq_some hb
  have hwin_mem : (mergeWinner fpa fpb).1 ∈ db.fingerprints := by
    unfold mergeWinner; split_ifs <;> assumption
  have hwl_ne : (mergeWinner fpa fpb).1.id ≠ (mergeWinner fpa fpb).2.id := by
    unfold mergeWinner; split_ifs
    · exact hne
    · exact fun h => hne h.symm
  unfold _merge_fingerprints
  simp only [ha, hb]
  rw [if_neg hne]
  refine ⟨rfl, ?_, ?_⟩
  · exact find_replace_filter db.fingerprints (mergeWinner fpa fpb).1.id
      (mergeWinner fpa fpb).2.id (fillFrom (mergeWinner fpa fpb).1 (mergeWinner fpa fpb).2)
      rfl hwl_ne ⟨(mergeWinner fpa fpb).1, hwin_mem, rfl⟩
  · exact find_after_delete db.fingerprints _ (mergeWinner fpa fpb).2.id

/-- Record A of the claim's scenario: MBID "mb-1", no BPM. -/
def fpA8 : AudioFingerprint := { fpBlank with mbid := "mb-1" }

/-- Record B of the claim's scenario: no MBID, bpm 128, key "C". -/
def fpB8 : AudioFingerprint := { fpBlank with id := 2, bpm := some 128, key := "C" }

/-- C8 witness: in the claim's scenario A (MBID "mb-1", no bpm) wins over B
(bpm 128, key "C") and survives with MBID "mb-1", bpm 128 and key "C". -/
theorem merge_fingerprints_winner_and_fill_witness :
    ((_merge_fingerprints (dbOnlyFps [fpA8, fpB8]) 1 2).2 = (mergeWinner fpA8 fpB8).1.id ∧
     (_merge_fingerprints (dbOnlyFps [fpA8, fpB8]) 1 2).1.getFp (mergeWinner fpA8 fpB8).1.id
       = some (fillFrom (mergeWinner fpA8 fpB8).1 (mergeWinner fpA8 fpB8).2) ∧
     (_merge_fingerprints (dbOnlyFps [fpA8, fpB8]) 1 2).1.getFp (mergeWinner fpA8 fpB8).2.id
       = none) ∧
    (mergeWinner fpA8 fpB8).1.id = 1 ∧
    fillFrom (mergeWinner fpA8 fpB8).1 (mergeWinner fpA8 fpB8).2
      = { fpA8 with bpm := some 128, key := "C" } := by
  refine ⟨merge_fingerprints_winner_and_fill (dbOnlyFps [fpA8, fpB8]) 1 2 fpA8 fpB8
    (by simp +decide [dbOnlyFps, Db.getFp, List.find?, fpA8, fpB8, fpBlank])
    (by simp +decide [dbOnlyFps, Db.getFp, List.find?, fpA8, fpB8, fpBlank])
    (by simp +decide [fpA8, fpB8, fpBlank]), ?_, ?_⟩ <;>
    simp +decide [mergeWinner, pyTupleGe, _quality, pyFalsyNum, fillFrom, fpA8, fpB8, fpBlank]

/-- C8 counterexample: not every empty survivor field is filled from the
loser — `shazam_id` is skipped.  Record 1 (MBID, empty shazam id) wins over
record 2 (shazam id "shz-9"), and the survivor's shazam id stays empty. -/
theorem merge_fingerprints_shazam_dropped :
    (_merge_fingerprints
        (dbOnlyFps [{ fpBlank with mbid := "mb-1" },
          { fpBlank with id := 2, shazam_id := "shz-9" }]) 1 2).2 = 1 ∧
    ((_merge_fingerprints
        (dbOnlyFps [{ fpBlank with mbid := "mb-1" },
          { fpBlank with id := 2, shazam_id := "shz-9" }]) 1 2).1.getFp 1).map
        AudioFingerprint.shazam_id = some "" ∧
    ((dbOnlyFps [{ fpBlank with mbid := "mb-1" },
        { fpBlank with id := 2, shazam_id := "shz-9" }]).getFp 2).map
        AudioFingerprint.shazam_id = some "shz-9" := by
  refine ⟨?_, ?_, ?_⟩ <;>
    simp +decide [_merge_fingerprints, dbOnlyFps, fpBlank, Db.getFp, List.find?, mergeWinner,
      pyTupleGe, _quality, fillFrom, pyFalsyNum]

/-- C1: evaluation of `_merge_fingerprints` at the failing input.  First
`merge(1,2)` lets record 2 (which has an MBID) win and deletes record 1; the
repeated `merge(1,2)` takes the `DoesNotExist` branch and returns
`fp_id_a = 1` — the id of the deleted record — instead of the surviving
id 2 promised by the docstring and the claim. -/
theorem merge_fingerprints_second_call_returns_deleted_id :
    (_merge_fingerprints (dbOnlyFps [fpBlank, { fpBlank with id := 2, mbid := "mb-1" }]) 1 2).2
      = 2 ∧
    (_merge_fingerprints (dbOnlyFps [fpBlank, { fpBlank with id := 2, mbid := "mb-1" }]) 1 2).1.getFp
      1 = none ∧
    (_merge_fingerprints
      (_merge_fingerprints (dbOnlyFps [fpBlank, { fpBlank with id := 2, mbid := "mb-1" }]) 1 2).1
      1 2).2 = 1 := by
  refine ⟨?_, ?_, ?_⟩ <;>
    simp +decide [_merge_fingerprints, dbOnlyFps, fpBlank, Db.getFp, List.find?, mergeWinner,
      pyTupleGe, _quality, fillFrom, pyFalsyNum]

/-!
Embedding of `local_fingerprint_service.similarity` and
`sync_views._apply_audio_score`.
-/

/-- Embedding of `local_fingerprint_service.similarity`: Jaccard similarity
(intersection over union) of the two hash lists viewed as sets; 0.0 when
either list is empty. -/
def similarity (fp_data_a fp_data_b : List String) : ℚ :=
  if fp_data_a = [] ∨ fp_data_b = [] then 0
  else
    let set_a := pySetListStr fp_data_a
    let set_b := pySetListStr fp_data_b
    let intersection := (set_a.filter fun x => set_b.contains x).length
    let union := (pySetListStr (fp_data_a ++ fp_data_b)).length
    if 0 < union then (intersection : ℚ) / union else 0

/-- Features dict of an optional fingerprint (`{}` when the row is absent). -/
def featuresOf : Option AudioFingerprint → Features
  | some fp => fp.audio_features
  | none => ⟨none, none, none⟩

/-- Embedding of `sync_views._apply_audio_score`.  The two `Option Nat`
arguments are the `TrackSource` rows passed as `src_ts`/`tgt_ts` (by id);
the `LocalFingerprint` lookups read `db`.  Early `return`s are threaded as
`Option`/`Sum` values. -/
def _apply_audio_score (db : Db) (conf : ℚ) (src_fp tgt_fp : Option AudioFingerprint)
    (src_ts tgt_ts : Option Nat) : ℚ :=
  let src_mbid := match src_fp with | some fp => fp.mbid | none => ""
  let tgt_mbid := match tgt_fp with | some fp => fp.mbid | none => ""
  if src_mbid ≠ "" ∧ tgt_mbid ≠ "" then
    if src_mbid = tgt_mbid then 1 else max 0 (conf - 15/100)
  else
    let earlyRet : Option ℚ :=
      match src_fp, tgt_fp with
      | some sfp, some tfp =>
        let src_isrcs := pySetListStr sfp.isrcs
        let tgt_isrcs := pySetListStr tfp.isrcs
        if src_isrcs ≠ [] ∧ tgt_isrcs ≠ [] then
          if (src_isrcs.filter fun x => tgt_isrcs.contains x) ≠ [] then some 1
          else some (max 0 (conf - 10/100))
        else if sfp.shazam_id ≠ "" ∧ tfp.shazam_id ≠ "" ∧ sfp.shazam_id = tfp.shazam_id then
          some 1
        else none
      | _, _ => none
    match earlyRet with
    | some r => r
    | none =>
      let localStep : ℚ ⊕ ℚ :=
        match src_ts, tgt_ts with
        | some sid, some tid =>
          match db.localFpData sid, db.localFpData tid with
          | some la, some lb =>
            let local_sim := similarity la lb
            if local_sim ≥ 15/100 then Sum.inl (max conf (95/100))
            else if local_sim ≥ 5/100 then Sum.inr (min 1 (conf + local_sim * (1/2)))
            else Sum.inr conf
          | _, _ => Sum.inr conf
        | _, _ => Sum.inr conf
      match localStep with
      | Sum.inl r => r
      | Sum.inr conf2 =>
        let src_feat := featuresOf src_fp
        let tgt_feat := featuresOf tgt_fp
        if src_feat.isEmptyDict ∨ tgt_feat.isEmptyDict then conf2
        else
          let adjusted := bpm_match_boost conf2 src_feat tgt_feat
          match src_feat.key, tgt_feat.key with
          | some src_key, some tgt_key =>
            if src_key = tgt_key then
              min 1 (adjusted + (if src_feat.mode = tgt_feat.mode then 3/100 else 1/100))
            else max 0 (adjusted - 5/100)
          | _, _ => adjusted

/-- Shared helper: in `_apply_audio_score`, when no MBID/ISRC/Shazam rule
fires and the local-fingerprint Jaccard similarity lies in [0.05, 0.15), the
confidence is boosted to `min 1 (conf + sim * 0.5)` and control then falls
through to the BPM/key block: the boosted value is final only when at least
one side has no audio features, otherwise BPM and key/mode adjustments are
applied on top of it. -/
theorem audio_score_local_midband (db : Db) (conf : ℚ) (sfp tfp : AudioFingerprint)
    (sid tid : Nat) (la lb : List String)
    (hmb : ¬(sfp.mbid ≠ "" ∧ tfp.mbid ≠ ""))
    (hisrc : ¬(pySetListStr sfp.isrcs ≠ [] ∧ pySetListStr tfp.isrcs ≠ []))
    (hshz : ¬(sfp.shazam_id ≠ "" ∧ tfp.shazam_id ≠ "" ∧ sfp.shazam_id = tfp.shazam_id))
    (hla : db.localFpData sid = some la) (hlb : db.localFpData tid = some lb)
    (hsim1 : 5/100 ≤ similarity la lb) (hsim2 : similarity la lb < 15/100) :
    (sfp.audio_features.isEmptyDict = true ∨ tfp.audio_features.isEmptyDict = true →
      _apply_audio_score db conf (some sfp) (some tfp) (some sid) (some tid)
        = min 1 (conf + similarity la lb * (1/2))) ∧
    (sfp.audio_features.isEmptyDict = false → tfp.audio_features.isEmptyDict = false →
      _apply_audio_score db conf (some sfp) (some tfp) (some sid) (some tid)
        = (match sfp.audio_features.key, tfp.audio_features.key with
           | some sk, some tk =>
             if sk = tk then
               min 1 (bpm_match_boost (min 1 (conf + similarity la lb * (1/2)))
                   sfp.audio_features tfp.audio_features
                 + (if sfp.audio_features.mode = tfp.audio_features.mode then 3/100 else 1/100))
             else max 0 (bpm_match_boost (min 1 (conf + similarity la lb * (1/2)))
                 sfp.audio_features tfp.audio_features - 5/100)
           | _, _ => bpm_match_boost (min 1 (conf + similarity la lb * (1/2)))
               sfp.audio_features tfp.audio_features)) := by
  have hcommon :
      _apply_audio_score db conf (some sfp) (some tfp) (some sid) (some tid)
        = (if sfp.audio_features.isEmptyDict = true ∨ tfp.audio_features.isEmptyDict = true then
            min 1 (conf + similarity la lb * (1/2))
          else
            match sfp.audio_features.key, tfp.audio_features.key with
            | some sk, some tk =>
              if sk = tk then
                min 1 (bpm_match_boost (min 1 (conf + similarity la lb * (1/2)))
                    sfp.audio_features tfp.audio_features
                  + (if sfp.audio_features.mode = tfp.audio_features.mode then 3/100 else 1/100))
              else max 0 (bpm_match_boost (min 1 (conf + similarity la lb * (1/2)))
                  sfp.audio_features tfp.audio_features - 5/100)
            | _, _ => bpm_match_boost (min 1 (conf + similarity la lb * (1/2)))
                sfp.audio_features tfp.audio_features) := by
    have h15 : ¬(similarity la lb ≥ 15/100) := not_le.mpr hsim2
    have h5 : similarity la lb ≥ 5/100 := hsim1
    unfold _apply_audio_score
    rw [if_neg hmb]
    simp only [hla, hlb]
    rw [if_neg hisrc, if_neg hshz, if_neg h15, if_pos h5]
    simp only [featuresOf]
  constructor
  · intro h
    rw [hcommon, if_pos h]
  · intro h1 h2
    rw [hcommon, if_neg (by simp [h1, h2])]

/-- C3: the amended cascade — with no MBID/ISRC/Shazam rule applicable and
Jaccard similarity in [0.05, 0.15), the adjusted confidence equals
`min(1.0, textConfidence + similarity*0.5)` only when at least one track has
no audio features; when both have features, the BPM and key/mode
adjustments are applied on top of the boosted value (only the ≥ 0.15 branch
returns immediately). -/
theorem apply_audio_score_partial_boost (db : Db) (conf : ℚ) (sfp tfp : AudioFingerprint)
    (sid tid : Nat) (la lb : List String)
    (hmb : ¬(sfp.mbid ≠ "" ∧ tfp.mbid ≠ ""))
    (hisrc : ¬(pySetListStr sfp.isrcs ≠ [] ∧ pySetListStr tfp.isrcs ≠ []))
    (hshz : ¬(sfp.shazam_id ≠ "" ∧ tfp.shazam_id ≠ "" ∧ sfp.shazam_id = tfp.shazam_id))
    (hla : db.localFpData sid = some la) (hlb : db.localFpData tid = some lb)
    (hsim1 : 5/100 ≤ similarity la lb) (hsim2 : similarity la lb < 15/100) :
    (sfp.audio_features.isEmptyDict = true ∨ tfp.audio_features.isEmptyDict = true →
      _apply_audio_score db conf (some sfp) (some tfp) (some sid) (some tid)
        = min 1 (conf + similarity la lb * (1/2))) ∧
    (sfp.audio_features.isEmptyDict = false → tfp.audio_features.isEmptyDict = false →
      _apply_audio_score db conf (some sfp) (some tfp) (some sid) (some tid)
        = (match sfp.audio_features.key, tfp.audio_features.key with
           | some sk, some tk =>
             if sk = tk then
               min 1 (bpm_match_boost (min 1 (conf + similarity la lb * (1/2)))
                   sfp.audio_features tfp.audio_features
                 + (if sfp.audio_features.mode = tfp.audio_features.mode then 3/100 else 1/100))
             else max 0 (bpm_match_boost (min 1 (conf + similarity la lb * (1/2)))
                 sfp.audio_features tfp.audio_features - 5/100)
           | _, _ => bpm_match_boost (min 1 (conf + similarity la lb * (1/2)))
               sfp.audio_features tfp.audio_features)) :=
  audio_score_local_midband db conf sfp tfp sid tid la lb hmb hisrc hshz hla hlb hsim1 hsim2

/-- Source-side fingerprint of the C3 counterexample: BPM 100, no key. -/
def srcFp3 : AudioFingerprint := { fpBlank with id := 11, bpm := some 100 }

/-- Target-side fingerprint of the C3 counterexample: BPM 130, no key. -/
def tgtFp3 : AudioFingerprint := { fpBlank with id := 12, bpm := some 130 }

/-- Local fingerprint hash list A: 4 hashes, 1 shared with B. -/
def lfpA3 : List String := ["s", "a1", "a2", "a3"]

/-- Local fingerprint hash list B: 7 hashes, 1 shared with A
(Jaccard similarity 1/10). -/
def lfpB3 : List String := ["s", "b1", "b2", "b3", "b4", "b5", "b6"]

/-- Store of the C3 counterexample. -/
def dbC3 : Db :=
  { fingerprints := [srcFp3, tgtFp3],
    trackSources := [⟨21, some 11, "soundcloud", "t21", "u21"⟩,
                     ⟨22, some 12, "youtube_publish", "t22", "u22"⟩],
    syncTracks := [], localFingerprints := [(21, lfpA3), (22, lfpB3)],
    libraryEntries := [], syncJobs := [] }

/-- C3 counterexample: similarity 0.1 ∈ [0.05, 0.15), no MBID/ISRC/Shazam
rule applies, text confidence 0.6 — the claim predicts
min(1, 0.6 + 0.1·0.5) = 0.65, but the code continues into the BPM block
(100 vs 130 BPM differ by 30 % > 15 %) and returns 0.65 − 0.10 = 0.55. -/
theorem apply_audio_score_bpm_after_boost :
    similarity lfpA3 lfpB3 = 1/10 ∧
    _apply_audio_score dbC3 (6/10) (some srcFp3) (some tgtFp3) (some 21) (some 22) = 55/100 ∧
    min 1 (6/10 + similarity lfpA3 lfpB3 * (1/2)) = 65/100 ∧
    (55 : ℚ)/100 ≠ 65/100 := by
  have hsim : similarity lfpA3 lfpB3 = 1/10 := by
    simp +decide [similarity, lfpA3, lfpB3, pySetListStr]
  have h := (audio_score_local_midband dbC3 (6/10) srcFp3 tgtFp3 21 22 lfpA3 lfpB3
    (by simp [srcFp3, tgtFp3, fpBlank])
    (by simp [srcFp3, tgtFp3, fpBlank, pySetListStr])
    (by simp [srcFp3, tgtFp3, fpBlank])
    (by simp +decide [Db.localFpData, dbC3, List.find?])
    (by simp +decide [Db.localFpData, dbC3, List.find?])
    (by rw [hsim]; norm_num) (by rw [hsim]; norm_num)).2
    (by simp +decide [srcFp3, fpBlank, AudioFingerprint.audio_features, Features.isEmptyDict])
    (by simp +decide [tgtFp3, fpBlank, AudioFingerprint.audio_features, Features.isEmptyDict])
  refine ⟨hsim, ?_, by rw [hsim]; norm_num [min_def], by norm_num⟩
  rw [h, hsim]
  norm_num [srcFp3, tgtFp3, fpBlank, AudioFingerprint.audio_features, bpm_match_boost,
    pyFalsyNum, abs, min_def, max_def]

/-- Featureless fingerprints used by the C3 witness. -/
def fpW1 : AudioFingerprint := { fpBlank with id := 13 }

/-- Second featureless fingerprint used by the C3 witness. -/
def fpW2 : AudioFingerprint := { fpBlank with id := 14 }

/-- Store of the C3 witness (no audio features on either side). -/
def dbC3W : Db :=
  { fingerprints := [fpW1, fpW2],
    trackSources := [⟨21, some 13, "soundcloud", "t21", "u21"⟩,
                     ⟨22, some 14, "youtube_publish", "t22", "u22"⟩],
    syncTracks := [], localFingerprints := [(21, lfpA3), (22, lfpB3)],
    libraryEntries := [], syncJobs := [] }

/-- C3 witness: with featureless fingerprints the boosted value is final. -/
theorem apply_audio_score_partial_boost_witness :
    _apply_audio_score dbC3W (6/10) (some fpW1) (some fpW2) (some 21) (some 22)
      = min 1 (6/10 + similarity lfpA3 lfpB3 * (1/2)) := by
  have hsim : similarity lfpA3 lfpB3 = 1/10 := by
    simp +decide [similarity, lfpA3, lfpB3, pySetListStr]
  exact (apply_audio_score_partial_boost dbC3W (6/10) fpW1 fpW2 21 22 lfpA3 lfpB3
    (by simp [fpW1, fpW2, fpBlank])
    (by simp [fpW1, fpW2, fpBlank, pySetListStr])
    (by simp [fpW1, fpW2, fpBlank])
    (by simp +decide [Db.localFpData, dbC3W, List.find?])
    (by simp +decide [Db.localFpData, dbC3W, List.find?])
    (by rw [hsim]; norm_num) (by rw [hsim]; norm_num)).1
    (Or.inl (by simp +decide [fpW1, fpBlank, AudioFingerprint.audio_features,
      Features.isEmptyDict]))

/-!
Embedding of `library_views._link_by_fingerprint_identity`.
-/

/-- One entry of the `_load_ts()` snapshot: the TrackSource with its
`select_related` fingerprint as loaded at the start of a phase (later
merges do not refresh these in-memory values, mirroring the source). -/
structure TsSnap where
  tsId : Nat
  platform : String
  fpId : Nat
  fp : AudioFingerprint
deriving DecidableEq, Repr

/-- Embedding of the `_load_ts()` query: the user's library TrackSources
with a non-null fingerprint, joined to the fingerprint row. -/
def _load_ts (db : Db) (user_id : Nat) : List TsSnap :=
  db.trackSources.filterMap fun ts =>
    if (user_id, ts.id) ∈ db.libraryEntries then
      match ts.fingerprint with
      | some fpid => (db.getFp fpid).map fun fp => ⟨ts.id, ts.platform, fpid, fp⟩
      | none => none
    else none

/-- Python `dict.setdefault(key, []).append(v)` on an insertion-ordered
dict, modelled as an association list. -/
def addToGroup (m : List (String × List TsSnap)) (k : String) (v : TsSnap) :
    List (String × List TsSnap) :=
  match m with
  | [] => [(k, [v])]
  | (k0, vs) :: rest =>
    if k0 = k then (k0, vs ++ [v]) :: rest else (k0, vs) :: addToGroup rest k v

/-- Build one phase's grouping map: every snapshot is appended under each of
its keys (one key for MBID/Shazam, one per ISRC). -/
def buildGroups (all_ts : List TsSnap) (keysOf : TsSnap → List String) :
    List (String × List TsSnap) :=
  all_ts.foldl (fun m snap => (keysOf snap).foldl (fun m2 k => addToGroup m2 k snap) m) []

/-- The merge chain run on one group: skip when fewer than two distinct
fingerprint ids or fewer than two distinct platforms, otherwise fold
`winner_id = _safe_merge(winner_id, loser_id)` over the remaining ids,
counting one merge per loser. -/
def mergeGroup (db : Db) (g : List TsSnap) : Db × Nat :=
  let fp_ids := pySetList (g.map TsSnap.fpId)
  if fp_ids.length < 2 then (db, 0)
  else if (pySetListStr (g.map TsSnap.platform)).length < 2 then (db, 0)
  else
    match fp_ids with
    | [] => (db, 0)
    | w0 :: rest =>
      let r := rest.foldl (fun acc loser_id =>
        let m := _merge_fingerprints acc.1 acc.2.1 loser_id
        (m.1, m.2, acc.2.2 + 1)) (db, w0, 0)
      (r.1, r.2.2)

/-- One keyed phase of the sweep: reload the snapshot, group it, run the
merge chain group by group, summing the merge counter. -/
def runPhase (db : Db) (user_id : Nat) (keysOf : TsSnap → List String) : Db × Nat :=
  (buildGroups (_load_ts db user_id) keysOf).foldl
    (fun acc kv =>
      let m := mergeGroup acc.1 kv.2
      (m.1, acc.2 + m.2)) (db, 0)

/-- The cross-platform platform-group pairs, in the source's
`for i ... for j in range(i+1, ...)` order. -/
def pairsAfter : List (List TsSnap) → List (List TsSnap × List TsSnap)
  | [] => []
  | a :: rest => (rest.map fun b => (a, b)) ++ pairsAfter rest

/-- The fourth (local-fingerprint) pass: group by platform the snapshot
entries that have a LocalFingerprint, cap each group at 150, compare all
cross-platform pairs and merge those with Jaccard similarity ≥ 0.15.  The
snapshot (including each entry's `fingerprint_id`) is the one loaded at the
start of the pass, so later merges within the pass act on possibly stale
ids, exactly as in the source. -/
def runLocalPhase (db : Db) (user_id : Nat) : Db × Nat :=
  let all_ts := _load_ts db user_id
  let by_platform := all_ts.foldl
    (fun m snap =>
      if (db.localFpData snap.tsId).isSome then addToGroup m snap.platform snap else m) []
  let groups := by_platform.map fun kv => kv.2.take 150
  (pairsAfter groups).foldl
    (fun acc pq =>
      pq.1.foldl (fun acc2 ts_a =>
        pq.2.foldl (fun acc3 ts_b =>
          if ts_a.fpId = ts_b.fpId then acc3
          else
            match db.localFpData ts_a.tsId, db.localFpData ts_b.tsId with
            | some la, some lb =>
              if similarity la lb ≥ 15/100 then
                let m := _merge_fingerprints acc3.1 ts_a.fpId ts_b.fpId
                (m.1, acc3.2 + 1)
              else acc3
            | _, _ => acc3) acc2) acc) (db, 0)

/-- Grouping key of phase 1: the fingerprint's MBID when set. -/
def mbidKeys (s : TsSnap) : List String := if s.fp.mbid ≠ "" then [s.fp.mbid] else []

/-- Grouping key of phase 2: the fingerprint's Shazam id when set. -/
def shazamKeys (s : TsSnap) : List String :=
  if s.fp.shazam_id ≠ "" then [s.fp.shazam_id] else []

/-- Grouping keys of phase 3: every ISRC, normalized by `strip().upper()`. -/
def isrcKeys (s : TsSnap) : List String := s.fp.isrcs.map fun i => strUpper (strStrip i)

/-- Embedding of `library_views._link_by_fingerprint_identity`: the MBID,
Shazam-id and ISRC phases (each reloading the snapshot), then the
local-fingerprint pass when `settings.LOCAL_FINGERPRINT_ENABLED` is set.
Returns the store and the number of merges performed. -/
def _link_by_fingerprint_identity (local_fp_enabled : Bool) (db : Db) (user_id : Nat) :
    Db × Nat :=
  let all_ts := _load_ts db user_id
  if all_ts.isEmpty then (db, 0)
  else
    let p1 := runPhase db user_id mbidKeys
    let p2 := runPhase p1.1 user_id shazamKeys
    let p3 := runPhase p2.1 user_id isrcKeys
    if local_fp_enabled then
      let p4 := runLocalPhase p3.1 user_id
      (p4.1, p1.2 + p2.2 + p3.2 + p4.2)
    else (p3.1, p1.2 + p2.2 + p3.2)

/-- Every snapshot entry inherits its platform from a stored TrackSource. -/
theorem load_ts_platform (db : Db) (u : Nat) (p : String)
    (hp : ∀ ts ∈ db.trackSources, ts.platform = p) :
    ∀ s ∈ _load_ts db u, s.platform = p := by
  intro s hs
  unfold _load_ts at hs
  rcases List.mem_filterMap.mp hs with ⟨ts, hts, hmap⟩
  split_ifs at hmap
  · cases hfp : ts.fingerprint with
    | none => rw [hfp] at hmap; cases hmap
    | some fpid =>
      rw [hfp] at hmap
      rcases Option.map_eq_some'.mp hmap with ⟨fp, _, hfs⟩
      rw [← hfs]
      exact hp ts hts

/-- Deduplicating a constant list yields at most one element (auxiliary
fold invariant). -/
theorem foldl_dedup_aux (l : List String) (p : String) :
    (∀ x ∈ l, x = p) → ∀ acc : List String, (acc = [] ∨ acc = [p]) →
      (l.foldl (fun a x => if x ∈ a then a else a ++ [x]) acc = [] ∨
       l.foldl (fun a x => if x ∈ a then a else a ++ [x]) acc = [p]) := by
  induction l with
  | nil => intro _ acc hacc; simpa using hacc
  | cons x xs ih =>
    intro hl acc hacc
    have hx : x = p := hl x (List.mem_cons_self x xs)
    have hl2 : ∀ y ∈ xs, y = p := fun y hy => hl y (List.mem_cons_of_mem _ hy)
    simp only [List.foldl_cons]
    rcases hacc with h | h <;> subst h
    · subst hx
      simpa using ih hl2 [x] (Or.inr rfl)
    · rw [hx, if_pos (List.mem_singleton.mpr rfl)]
      exact ih hl2 [p] (Or.inr rfl)

/-- A constant list has at most one distinct element. -/
theorem pySetListStr_all_eq (l : List String) (p : String) (hl : ∀ x ∈ l, x = p) :
    (pySetListStr l).length ≤ 1 := by
  rcases foldl_dedup_aux l p hl [] (Or.inl rfl) with h | h <;>
    unfold pySetListStr <;> rw [h] <;> simp

/-- A group whose members all share one platform is skipped by the merge
chain (the `len({platforms}) < 2` guard). -/
theorem mergeGroup_same_platform (db : Db) (g : List TsSnap) (p : String)
    (hg : ∀ s ∈ g, s.platform = p) : mergeGroup db g = (db, 0) := by
  unfold mergeGroup
  by_cases hlen : (pySetList (g.map TsSnap.fpId)).length < 2
  · rw [if_pos hlen]
  · rw [if_neg hlen, if_pos]
    have := pySetListStr_all_eq (g.map TsSnap.platform) p
      (by intro x hx; rcases List.mem_map.mp hx with ⟨s, hs, rfl⟩; exact hg s hs)
    omega

/-- Inserting a snapshot preserves a property holding of all group members. -/
theorem addToGroup_members (m : List (String × List TsSnap)) (k : String) (v : TsSnap)
    (P : TsSnap → Prop)
    (hm : ∀ kv ∈ m, ∀ s ∈ kv.2, P s) (hv : P v) :
    ∀ kv ∈ addToGroup m k v, ∀ s ∈ kv.2, P s := by
  induction m with
  | nil =>
    intro kv hkv s hs
    simp only [addToGroup, List.mem_singleton] at hkv
    subst hkv
    simp only [List.mem_singleton] at hs
    subst hs; exact hv
  | cons hd tl ih =>
    obtain ⟨k0, vs⟩ := hd
    intro kv hkv s hs
    unfold addToGroup at hkv
    by_cases hk : k0 = k
    · rw [if_pos hk] at hkv
      rcases List.mem_cons.mp hkv with h | h
      · subst h
        rcases List.mem_append.mp hs with h2 | h2
        · exact hm (k0, vs) (List.mem_cons_self _ _) s h2
        · simp only [List.mem_singleton] at h2; subst h2; exact hv
      · exact hm kv (List.mem_cons_of_mem _ h) s hs
    · rw [if_neg hk] at hkv
      rcases List.mem_cons.mp hkv with h | h
      · subst h; exact hm (k0, vs) (List.mem_cons_self _ _) s hs
      · exact ih (fun kv2 hkv2 => hm kv2 (List.mem_cons_of_mem _ hkv2)) kv h s hs

/-- Inserting one snapshot under all its keys preserves the invariant. -/
theorem foldKeys_members (x : TsSnap) (P : TsSnap → Prop) (hx : P x) (ks : List String) :
    ∀ (m : List (String × List TsSnap)), (∀ kv ∈ m, ∀ s ∈ kv.2, P s) →
      ∀ kv ∈ ks.foldl (fun m2 k => addToGroup m2 k x) m, ∀ s ∈ kv.2, P s := by
  induction ks with
  | nil => intro m hm; simpa using hm
  | cons k ks ih =>
    intro m hm
    simp only [List.foldl_cons]
    exact ih (addToGroup m k x) (addToGroup_members m k x P hm hx)

/-- Every member of every built group comes from the snapshot list. -/
theorem foldSnaps_members (keysOf : TsSnap → List String) (P : TsSnap → Prop) :
    ∀ (l : List TsSnap), (∀ s ∈ l, P s) → ∀ (m : List (String × List TsSnap)),
      (∀ kv ∈ m, ∀ s ∈ kv.2, P s) →
      ∀ kv ∈ l.foldl (fun m2 snap => (keysOf snap).foldl (fun m3 k => addToGroup m3 k snap) m2) m,
        ∀ s ∈ kv.2, P s := by
  intro l
  induction l with
  | nil => intro _ m hm; simpa using hm
  | cons x xs ih =>
    intro hl m hm
    simp only [List.foldl_cons]
    exact ih (fun s hs => hl s (List.mem_cons_of_mem _ hs)) _
      (foldKeys_members x P (hl x (List.mem_cons_self _ _)) (keysOf x) m hm)

/-- Folding the merge chain over all-same-platform groups changes nothing. -/
theorem foldGroups_id (p : String) :
    ∀ (groups : List (String × List TsSnap)),
      (∀ kv ∈ groups, ∀ s ∈ kv.2, s.platform = p) →
      ∀ (db : Db) (n : Nat), groups.foldl (fun acc kv =>
          let m := mergeGroup acc.1 kv.2
          (m.1, acc.2 + m.2)) (db, n) = (db, n) := by
  intro groups
  induction groups with
  | nil => intro _ db n; rfl
  | cons kv tl ih =>
    intro hg db n
    have hkv := mergeGroup_same_platform db kv.2 p
      (fun s hs => hg kv (List.mem_cons_self _ _) s hs)
    simp only [List.foldl_cons, hkv]
    simpa using ih (fun kv2 h2 => hg kv2 (List.mem_cons_of_mem _ h2)) db n

/-- A keyed phase over a single-platform library performs no merge. -/
theorem runPhase_same_platform (db : Db) (u : Nat) (keysOf : TsSnap → List String) (p : String)
    (hp : ∀ ts ∈ db.trackSources, ts.platform = p) :
    runPhase db u keysOf = (db, 0) := by
  unfold runPhase
  exact foldGroups_id p (buildGroups (_load_ts db u) keysOf)
    (foldSnaps_members keysOf (fun s => s.platform = p) (_load_ts db u)
      (load_ts_platform db u p hp) [] (by simp)) db 0

/-- Inserting under a fixed key keeps the grouping a one-key dict. -/
theorem addToGroup_single_key (m : List (String × List TsSnap)) (p : String) (v : TsSnap)
    (hm : m = [] ∨ ∃ l, m = [(p, l)]) :
    ∃ l, addToGroup m p v = [(p, l)] := by
  rcases hm with h | ⟨l, h⟩ <;> subst h
  · exact ⟨[v], rfl⟩
  · exact ⟨l ++ [v], by simp [addToGroup]⟩

/-- Grouping a single-platform snapshot by platform yields at most one key. -/
theorem foldPlatform_single (db : Db) (p : String) :
    ∀ (l : List TsSnap), (∀ s ∈ l, s.platform = p) →
      ∀ (m : List (String × List TsSnap)), (m = [] ∨ ∃ g, m = [(p, g)]) →
      (l.foldl (fun m2 snap =>
          if (db.localFpData snap.tsId).isSome then addToGroup m2 snap.platform snap else m2) m
          = [] ∨
       ∃ g, l.foldl (fun m2 snap =>
          if (db.localFpData snap.tsId).isSome then addToGroup m2 snap.platform snap else m2) m
          = [(p, g)]) := by
  intro l
  induction l with
  | nil => intro _ m hm; simpa using hm
  | cons x xs ih =>
    intro hl m hm
    have hx : x.platform = p := hl x (List.mem_cons_self _ _)
    have hl2 : ∀ s ∈ xs, s.platform = p := fun s hs => hl s (List.mem_cons_of_mem _ hs)
    simp only [List.foldl_cons]
    by_cases hifp : (db.localFpData x.tsId).isSome
    · rw [if_pos hifp]
      refine ih hl2 _ (Or.inr ?_)
      rw [hx]
      exact addToGroup_single_key m p x hm
    · rw [if_neg hifp]
      exact ih hl2 m hm

/-- The local-fingerprint pass over a single-platform library performs no
merge: there is at most one platform group, so no cross-platform pair. -/
theorem runLocalPhase_same_platform (db : Db) (u : Nat) (p : String)
    (hp : ∀ ts ∈ db.trackSources, ts.platform = p) :
    runLocalPhase db u = (db, 0) := by
  have hf := foldPlatform_single db p (_load_ts db u) (load_ts_platform db u p hp) []
    (Or.inl rfl)
  unfold runLocalPhase
  rcases hf with h | ⟨g, h⟩ <;> simp only [h] <;> rfl

/-- C4 (amended): the sweep only skips groups that lie entirely on one
platform; in particular a library whose Track References are all on the
same platform is left untouched (no merge at all, store unchanged), with or
without the local-fingerprint pass.  Within a mixed-platform group, however,
all distinct fingerprint ids are merged together, including the records of
same-platform pairs — see the counterexample. -/
theorem link_identity_single_platform (e : Bool) (db : Db) (u : Nat) (p : String)
    (hp : ∀ ts ∈ db.trackSources, ts.platform = p) :
    _link_by_fingerprint_identity e db u = (db, 0) := by
  have h1 : runPhase db u mbidKeys = (db, 0) := runPhase_same_platform db u _ p hp
  have h2 : runPhase db u shazamKeys = (db, 0) := runPhase_same_platform db u _ p hp
  have h3 : runPhase db u isrcKeys = (db, 0) := runPhase_same_platform db u _ p hp
  have h4 : runLocalPhase db u = (db, 0) := runLocalPhase_same_platform db u p hp
  unfold _link_by_fingerprint_identity
  by_cases hempty : (_load_ts db u).isEmpty
  · rw [if_pos hempty]
  · rw [if_neg hempty]
    cases e <;> simp [h1, h2, h3, h4]

/-- Single-platform store used by the C4 witness: two SoundCloud tracks
with distinct fingerprints sharing an MBID. -/
def dbC4single : Db :=
  { fingerprints := [{ fpBlank with id := 41, mbid := "m" },
                     { fpBlank with id := 42, mbid := "m" }],
    trackSources := [⟨31, some 41, "soundcloud", "t31", "u31"⟩,
                     ⟨32, some 42, "soundcloud", "t32", "u32"⟩],
    syncTracks := [], localFingerprints := [],
    libraryEntries := [(7, 31), (7, 32)], syncJobs := [] }

/-- C4 witness: the sweep leaves a pure-SoundCloud library untouched even
though two of its fingerprints share an MBID. -/
theorem link_identity_single_platform_witness :
    _link_by_fingerprint_identity true dbC4single 7 = (dbC4single, 0) :=
  link_identity_single_platform true dbC4single 7 "soundcloud"
    (by simp +decide [dbC4single])

/-- Mixed-platform store of the C4 counterexample: two SoundCloud tracks
and one YouTube track, all three fingerprints sharing MBID "m". -/
def dbC4 : Db :=
  { fingerprints := [{ fpBlank with id := 41, mbid := "m" },
                     { fpBlank with id := 42, mbid := "m" },
                     { fpBlank with id := 43, mbid := "m" }],
    trackSources := [⟨31, some 41, "soundcloud", "t31", "u31"⟩,
                     ⟨32, some 42, "soundcloud", "t32", "u32"⟩,
                     ⟨33, some 43, "youtube_publish", "t33", "u33"⟩],
    syncTracks := [], localFingerprints := [],
    libraryEntries := [(7, 31), (7, 32), (7, 33)], syncJobs := [] }

/-- C4 counterexample: in a group spanning two platforms the sweep merges
the fingerprints of the two same-platform SoundCloud Track References with
each other — after the sweep both point to fingerprint 41 and fingerprint
42 is deleted, although they are on the same platform and started with
distinct records. -/
theorem link_identity_merges_same_platform :
    ((dbC4.trackSources.find? fun ts => ts.id == 31).map TrackSource.fingerprint
      = some (some 41)) ∧
    ((dbC4.trackSources.find? fun ts => ts.id == 32).map TrackSource.fingerprint
      = some (some 42)) ∧
    (((_link_by_fingerprint_identity false dbC4 7).1.trackSources.find?
        fun ts => ts.id == 31).map TrackSource.fingerprint = some (some 41)) ∧
    (((_link_by_fingerprint_identity false dbC4 7).1.trackSources.find?
        fun ts => ts.id == 32).map TrackSource.fingerprint = some (some 41)) ∧
    ((_link_by_fingerprint_identity false dbC4 7).1.getFp 42 = none) := by
  refine ⟨by simp +decide [dbC4, List.find?], by simp +decide [dbC4, List.find?], ?_, ?_, ?_⟩ <;>
    simp +decide [_link_by_fingerprint_identity, runPhase, buildGroups, addToGroup, mergeGroup,
      mbidKeys, shazamKeys, isrcKeys, _load_ts, dbC4, Db.getFp, List.find?, pySetList,
      pySetListStr, _merge_fingerprints, mergeWinner, pyTupleGe, _quality, fillFrom, pyFalsyNum,
      strUpper, strStrip, fpBlank]

/-!
Embedding of the match workers `sync_views._match_one_track` (Level 1+2)
and `sync_views._run_level3_one_track` (Level 3).
-/

/-- `SourceConnection.SourceType.YOUTUBE_PUBLISH`. -/
def YOUTUBE_PUBLISH : String := "youtube_publish"

/-- `SourceConnection.SourceType.SPOTIFY`. -/
def SPOTIFY : String := "spotify"

/-- Embedding of `sync_views._target_url`. -/
def _target_url (sync_track : SyncTrack) (target_source_type : String) : String :=
  if target_source_type = YOUTUBE_PUBLISH then
    "https://www.youtube.com/watch?v=" ++ sync_track.target_video_id
  else if target_source_type = SPOTIFY then
    "https://open.spotify.com/track/" ++ sync_track.target_video_id
  else sync_track.target_video_id

/-- Embedding of `sync_views._check_confirmed_cache`: the newest confirmed
SyncTrack for the same source platform/track and target platform, excluding
empty targets.  SQL leaves the order of equal `created_at` rows unspecified;
the model keeps the first. -/
def _check_confirmed_cache (db : Db) (src_platform src_track_id tgt_platform : String) :
    Option (String × String × ℚ × List Alt) :=
  let hits := db.syncTracks.filter fun t =>
    t.job_src_platform = src_platform ∧ t.source_track_id = src_track_id ∧
    t.job_tgt_platform = tgt_platform ∧ t.user_feedback = "confirmed" ∧
    t.target_video_id ≠ ""
  let best := hits.foldl (fun acc t =>
    match acc with
    | none => some t
    | some b => if t.job_created_at > b.job_created_at then some t else acc) none
  best.map fun t => (t.target_video_id, t.target_title, 1, [])

/-- The result dict returned by `_match_one_track` and consumed by
`_apply_match_result` (the `ok` field split into two constructors). -/
inductive MatchResult where
  | ok (sync_track_id : Nat) (video_id matched_title : String) (confidence : ℚ)
      (alternatives : List Alt) (tgt_url : Option String) (tgt_platform : String)
      (from_confirmed_cache : Bool)
  | err (sync_track_id : Nat) (error : String)
deriving DecidableEq, Repr

/-- Uninterpreted `music_matcher._find_match_on_target` (network search):
arguments are target platform, source title, artist, duration and ISRC;
result is (video id, matched title, confidence, alternatives). -/
def FindMatchOracle := String → String → String → Option ℚ → Option String →
  Option String × Option String × ℚ × List Alt

/-- Embedding of `sync_views._match_one_track`: the Level 1+2 worker.  Every
store read threads the state through unchanged; the returned pair makes the
absence of writes checkable. -/
def _match_one_track (find_match : FindMatchOracle) (db : Db)
    (sync_track_id job_id : Nat) (isrc : Option String)
    (tgt_platform src_platform : String) : Db × MatchResult :=
  match db.syncTracks.find? fun t => t.id == sync_track_id with
  | none => (db, .err sync_track_id "SyncTrack matching query does not exist.")
  | some sync_track =>
    if ¬ job_id ∈ db.syncJobs then
      (db, .err sync_track_id "SyncJob matching query does not exist.")
    else if src_platform = tgt_platform then
      if tgt_platform = YOUTUBE_PUBLISH then
        (db, .ok sync_track_id sync_track.source_track_id sync_track.source_title 1 []
          (some ("https://www.youtube.com/watch?v=" ++ sync_track.source_track_id))
          tgt_platform false)
      else
        (db, .ok sync_track_id
          (if sync_track.source_permalink_url ≠ "" then sync_track.source_permalink_url
           else sync_track.source_track_id)
          sync_track.source_title 1 []
          (some (if sync_track.source_permalink_url ≠ "" then sync_track.source_permalink_url
            else sync_track.source_track_id))
          tgt_platform false)
    else
      let step :=
        match _check_confirmed_cache db src_platform sync_track.source_track_id tgt_platform with
        | some (v, t, c, alts) => (some v, some t, c, alts, true)
        | none =>
          let r := find_match tgt_platform sync_track.source_title sync_track.source_artist
            sync_track.source_duration_ms isrc
          (r.1, r.2.1, r.2.2.1, r.2.2.2, false)
      let tgt_url :=
        if pyTruthyStr step.1 then
          some (if tgt_platform = YOUTUBE_PUBLISH then
              "https://www.youtube.com/watch?v=" ++ step.1.getD ""
            else step.1.getD "")
        else none
      (db, .ok sync_track_id (step.1.getD "") (step.2.1.getD "") step.2.2.1 step.2.2.2.1
        tgt_url tgt_platform step.2.2.2.2)

/-- Model of Python `round(x, 4)`: round half to even at four decimal
places (the embedded uses hit exact decimals, so binary-float
representation artifacts are not modelled). -/
def round4 (q : ℚ) : ℚ :=
  (let y := q * 10000
   let f : ℤ := ⌊y⌋
   let r := y - f
   if r < 1/2 then (f : ℚ) else if r > 1/2 then (f : ℚ) + 1
   else if f % 2 = 0 then (f : ℚ) else (f : ℚ) + 1) / 10000

/-- One `AudioFingerprint.objects.filter(pk=fp.pk).update(match_count=
fp.match_count + 1, last_matched_at=now)` call: note the new count comes
from the in-memory `fp` snapshot, as in the source. -/
def bumpFp (db : Db) (fp? : Option AudioFingerprint) (now : Nat) : Db :=
  match fp? with
  | some fp =>
    { db with fingerprints := db.fingerprints.map fun f =>
        if f.id == fp.id then
          { f with match_count := fp.match_count + 1, last_matched_at := some now }
        else f }
  | none => db

/-- Uninterpreted `sync_views._get_or_build_fingerprint` (cache lookup with
a network/audio-analysis build path): a state transformer taking platform,
track id and audio url and returning the possibly extended store together
with the fingerprint, if any. -/
def GetOrBuildOracle := Db → String → String → String → Db × Option AudioFingerprint

/-- Embedding of `sync_views._run_level3_one_track`: the Level 3 worker.
Unlike `_match_one_track` it writes to the store itself: the SyncTrack
confidence/status update and the fingerprint match-count bumps happen in
the worker body (plus whatever `_get_or_build_fingerprint` persists). -/
def _run_level3_one_track (get_or_build : GetOrBuildOracle) (now : Nat) (db : Db)
    (sync_track_id : Nat) (target_source_type src_platform : String) : Db :=
  match db.syncTracks.find? fun t => t.id == sync_track_id with
  | none => db
  | some sync_track =>
    if sync_track.target_video_id = "" ∨ sync_track.source_permalink_url = "" then db
    else
      let r1 := get_or_build db src_platform sync_track.source_track_id
        sync_track.source_permalink_url
      let r2 := get_or_build r1.1 target_source_type sync_track.target_video_id
        (_target_url sync_track target_source_type)
      let db2 := r2.1
      let src_fp := r1.2
      let tgt_fp := r2.2
      if src_fp = none ∧ tgt_fp = none then db2
      else
        let src_ts := db2.trackSources.find? fun ts =>
          ts.platform == src_platform && ts.track_id == sync_track.source_track_id
        let tgt_ts := db2.trackSources.find? fun ts =>
          ts.platform == target_source_type && ts.track_id == sync_track.target_video_id
        let conf := sync_track.match_confidence.getD 0
        let adjusted := round4 (_apply_audio_score db2 conf src_fp tgt_fp
          (src_ts.map TrackSource.id) (tgt_ts.map TrackSource.id))
        let new_status := classify_confidence adjusted
        let db3 :=
          if adjusted ≠ conf ∨ new_status ≠ sync_track.status then
            { db2 with syncTracks := db2.syncTracks.map fun t =>
                if t.id == sync_track_id then
                  { t with match_confidence := some adjusted, status := new_status }
                else t }
          else db2
        if adjusted ≥ THRESHOLD_MATCHED then bumpFp (bumpFp db3 src_fp now) tgt_fp now
        else db3

/-- C9 (amended): the Level 1+2 search worker performs no persistent-state
writes — for every oracle, store and arguments it returns the store
unchanged together with its result value, which the orchestrator applies
serially.  The Level 3 worker, by contrast, writes from the worker body
itself — see the counterexample. -/
theorem match_one_track_no_writes (find_match : FindMatchOracle) (db : Db)
    (sync_track_id job_id : Nat) (isrc : Option String) (tgt_platform src_platform : String) :
    (_match_one_track find_match db sync_track_id job_id isrc tgt_platform src_platform).1
      = db := by
  unfold _match_one_track
  cases h : db.syncTracks.find? fun t => t.id == sync_track_id with
  | none => rfl
  | some t => split_ifs <;> rfl

/-- The read-only cache-hit behaviour of `_get_or_build_fingerprint`: look
the TrackSource up and return its stored fingerprint, leaving the store
unchanged (the build path, which downloads audio and persists new rows, is
not exercised here). -/
def cacheHitOracle : GetOrBuildOracle := fun db platform track_id _ =>
  (db, (db.trackSources.find? fun ts =>
      ts.platform == platform && ts.track_id == track_id).bind
    fun ts => ts.fingerprint.bind fun fpid => db.getFp fpid)

/-- The UNCERTAIN SyncTrack of the C9 counterexample (confidence 0.6). -/
def stC9 : SyncTrack :=
  { id := 1, job_id := 5, job_src_platform := "soundcloud",
    job_tgt_platform := "youtube_publish", job_created_at := 0,
    source_track_id := "sc1", source_title := "Song", source_artist := "Who",
    source_duration_ms := some 200000, source_permalink_url := "https://sc/1",
    match_confidence := some (6/10), target_video_id := "yt1", target_title := "Song",
    status := "uncertain", user_feedback := "" }

/-- Store of the C9 counterexample: both sides already fingerprinted
(BPM 100 vs 130), so the oracle only reads. -/
def dbC9 : Db :=
  { fingerprints := [{ fpBlank with id := 61, bpm := some 100 },
                     { fpBlank with id := 62, bpm := some 130 }],
    trackSources := [⟨51, some 61, "soundcloud", "sc1", "https://sc/1"⟩,
                     ⟨52, some 62, "youtube_publish", "yt1", "https://yt/1"⟩],
    syncTracks := [stC9], localFingerprints := [], libraryEntries := [], syncJobs := [5] }

/-- C9 counterexample: the Level 3 worker writes to the persistent store
from the worker body.  Even with a purely read-only fingerprint oracle it
updates the SyncTrack row (BPM mismatch drops 0.6 to 0.5, status to
`not_found`), so the store after the worker differs from the store before —
"workers perform no persistent-state writes" fails for the Level 3 worker. -/
theorem run_level3_writes_to_store :
    ((_run_level3_one_track cacheHitOracle 0 dbC9 1 "youtube_publish" "soundcloud").syncTracks.find?
        fun t => t.id == 1).map (fun t => (t.match_confidence, t.status))
      = some (some (1/2), "not_found") ∧
    ((dbC9.syncTracks.find? fun t => t.id == 1).map fun t => (t.match_confidence, t.status))
      = some (some (6/10), "uncertain") ∧
    _run_level3_one_track cacheHitOracle 0 dbC9 1 "youtube_publish" "soundcloud" ≠ dbC9 := by
  have h2 : ((dbC9.syncTracks.find? fun t => t.id == 1).map
      fun t => (t.match_confidence, t.status)) = some (some (6/10), "uncertain") := by
    simp +decide [dbC9, stC9, List.find?]
  have h1 : ((_run_level3_one_track cacheHitOracle 0 dbC9 1 "youtube_publish"
      "soundcloud").syncTracks.find? fun t => t.id == 1).map
        (fun t => (t.match_confidence, t.status)) = some (some (1/2), "not_found") := by
    simp +decide [_run_level3_one_track, cacheHitOracle, dbC9, stC9, fpBlank, List.find?,
      Db.getFp, _target_url, YOUTUBE_PUBLISH, SPOTIFY, _apply_audio_score, Db.localFpData,
      featuresOf, AudioFingerprint.audio_features, Features.isEmptyDict, bpm_match_boost,
      pyFalsyNum, pySetListStr]
    norm_num [round4, classify_confidence, THRESHOLD_MATCHED, THRESHOLD_UNCERTAIN,
      abs, min_def, max_def, List.find?]
  refine ⟨h1, h2, fun h => ?_⟩
  rw [h, h2] at h1
  simp +decide at h1

end Mediaplace
